import Mathlib

/-!
Shallow embedding of `packages/playwright-core/src/utils/comparators.ts`.

The file models the comparator registry (`getComparator`), the image
comparator (`compareImages`), the text comparator (`compareText`) and the
binary comparator (`compareBuffersOrStrings`).

External collaborators (image codecs, the `pixelmatch` and `ssim-cie94`
pixel-diff kernels, the `diff_match_patch` text-diff kernel, Node's UTF-8
decoding and the `colors` styling library) are modelled as abstract
functions bundled in environment structures, exactly at the narrow
interfaces through which the source consumes them.

JavaScript numbers occurring in option values and threshold arithmetic are
modelled as rationals (`ℚ`); byte buffers as `List Nat`; a JavaScript value
that may be a `Buffer`, a string, or anything else is modelled by
`BufferOrString`.
-/

namespace Comparators

/-- A JavaScript value flowing into a comparator as the `actual` argument:
a string, a byte buffer (`Buffer`), or any other value (`undefined`,
`null`, a number, a plain object, ...). -/
inductive BufferOrString where
  | str (s : String)
  | buf (b : List Nat)
  | other
deriving Repr, DecidableEq

/-- A decoded image: `width`, `height` and the flat RGBA sample buffer, as
produced by `PNG.sync.read` / `jpegjs.decode`. -/
structure Image where
  width : Nat
  height : Nat
  data : List Nat
deriving Repr, DecidableEq

/-- The mismatch half of `ComparatorResult`: an error message and an
optional encoded diff-image payload. -/
structure MismatchInfo where
  errorMessage : String
  diff : Option (List Nat) := none
deriving Repr, DecidableEq

/-- The `ComparatorResult` type from the source: `null` (here `none`) on match,
otherwise the mismatch record. -/
abbrev ComparatorResult := Option MismatchInfo

/-- The `ImageComparatorOptions` type from the source.  All fields optional;
numbers are modelled as rationals. -/
structure ImageComparatorOptions where
  threshold : Option ℚ := none
  maxDiffPixels : Option ℚ := none
  maxDiffPixelRatio : Option ℚ := none
  comparator : Option String := none
deriving Repr, DecidableEq

/-- Abstract interface to the image codec and the two pixel-diff kernels.
`decodePng`/`decodeJpeg` may fail (the codecs throw on undecodable input);
each kernel returns the differing-pixel count together with the
visualization data it wrote into the `diff` grid; `encodePng` is
`PNG.sync.write`. -/
structure ImageEnv where
  decodePng : List Nat → Except String Image
  decodeJpeg : List Nat → Except String Image
  pixelmatch : List Nat → List Nat → Nat → Nat → ℚ → Nat × List Nat
  ssimCie94 : List Nat → List Nat → Nat → Nat → ℚ → Nat × List Nat
  encodePng : Image → List Nat

/-- Abstract interface to Node's UTF-8 buffer decoding, the
`diff_match_patch` kernel and the `colors` styling sink. -/
structure TextEnv where
  toStringUtf8 : List Nat → String
  diffMain : String → String → List (Int × String)
  cleanupSemantic : List (Int × String) → List (Int × String)
  green : String → String
  red : String → String
  strikethrough : String → String
  colorReset : String → String

/-- The full external environment of the module. -/
structure Env where
  image : ImageEnv
  text : TextEnv

/-- Constant `DIFF_INSERT` of `diff_match_patch`. -/
def DIFF_INSERT : Int := 1

/-- Constant `DIFF_DELETE` of `diff_match_patch`. -/
def DIFF_DELETE : Int := -1

/-- Constant `DIFF_EQUAL` of `diff_match_patch`. -/
def DIFF_EQUAL : Int := 0

/-- Rendering of `ratio.toFixed(2)` for a ratio that is an integer number
of hundredths (the source's ratio is `Math.ceil(...)/100`): decimal string
with exactly two fractional digits. -/
def toFixed2 (hundredths : Int) : String :=
  let sign := if hundredths < 0 then "-" else ""
  let a := hundredths.natAbs
  let frac := a % 100
  sign ++ Nat.repr (a / 100) ++ "." ++
    (if frac < 10 then "0" ++ Nat.repr frac else Nat.repr frac)

/-- Function `diff_prettyTerminal` from the source: renders a `diff_match_patch`
edit sequence, styling inserts green, deletes red/struck-through/reset,
and passing equal spans through verbatim.  An operation tag outside the
three constants leaves its slot unassigned, which `join('')` renders as
the empty string. -/
def diff_prettyTerminal (env : TextEnv) (diffs : List (Int × String)) : String :=
  String.join (diffs.map (fun d =>
    let op := d.1
    let text := d.2
    if op = DIFF_INSERT then env.green text
    else if op = DIFF_DELETE then env.colorReset (env.strikethrough (env.red text))
    else if op = DIFF_EQUAL then text
    else ""))

/-- Function `compareText` from the source. -/
def compareText (env : TextEnv) (actual : BufferOrString) (expectedBuffer : List Nat) :
    ComparatorResult :=
  match actual with
  | .str a =>
    let expected := env.toStringUtf8 expectedBuffer
    if expected = a then none
    else
      let d := env.cleanupSemantic (env.diffMain expected a)
      some { errorMessage := diff_prettyTerminal env d }
  | _ => some { errorMessage := "Actual result should be a string" }

/-- Function `compareBuffersOrStrings` from the source: strings are delegated to
`compareText`; non-buffers are a contract-violation mismatch; buffers are
compared byte-for-byte (`Buffer.compare` returns nonzero iff unequal). -/
def compareBuffersOrStrings (env : TextEnv) (actualBuffer : BufferOrString)
    (expectedBuffer : List Nat) : ComparatorResult :=
  match actualBuffer with
  | .str s => compareText env (.str s) expectedBuffer
  | .other => some { errorMessage := "Actual result should be a Buffer or a string." }
  | .buf b =>
    if b ≠ expectedBuffer then some { errorMessage := "Buffers differ" }
    else none

/-- The decode step of `compareImages`:
`mimeType === 'image/png' ? PNG.sync.read(buffer) : jpegjs.decode(buffer, ...)`. -/
def decodeImage (env : ImageEnv) (mimeType : String) (buffer : List Nat) :
    Except String Image :=
  if mimeType = "image/png" then env.decodePng buffer else env.decodeJpeg buffer

/-- The algorithm-dispatch step of `compareImages` (source lines 63-75):
`options.comparator === 'ssim-cie94'` selects the CIE94 kernel with the
fixed `maxColorDeltaE94 = 1.0`; otherwise `options.comparator ?? 'pixelmatch'`
equal to `'pixelmatch'` selects pixelmatch with
`threshold: options.threshold ?? 0.2`; any other value throws. -/
def runComparatorAlgorithm (env : ImageEnv) (options : ImageComparatorOptions)
    (expectedData actualData : List Nat) (width height : Nat) :
    Except String (Nat × List Nat) :=
  if options.comparator = some "ssim-cie94" then
    .ok (env.ssimCie94 expectedData actualData width height 1)
  else if options.comparator.getD "pixelmatch" = "pixelmatch" then
    .ok (env.pixelmatch expectedData actualData width height
      (options.threshold.getD (1/5)))
  else
    .error ("Configuration specifies unknown comparator \"" ++
      options.comparator.getD "undefined" ++ "\"")

/-- The effective-pixel-cap computation of `compareImages` (source lines
77-83): `maxDiffPixels1 := options.maxDiffPixels`;
`maxDiffPixels2 := width*height*options.maxDiffPixelRatio` when the ratio
is present; minimum when both present, else `maxDiffPixels1 ?? maxDiffPixels2 ?? 0`. -/
def effectiveMaxDiffPixels (options : ImageComparatorOptions) (width height : Nat) : ℚ :=
  let maxDiffPixels1 := options.maxDiffPixels
  let maxDiffPixels2 := options.maxDiffPixelRatio.map
    (fun r => ((width * height : Nat) : ℚ) * r)
  match maxDiffPixels1, maxDiffPixels2 with
  | some m1, some m2 => min m1 m2
  | some m1, none => m1
  | none, some m2 => m2
  | none, none => 0

/-- The dimension-mismatch message template of `compareImages`:
`Expected an image ${expected.width}px by ${expected.height}px, received
${actual.width}px by ${actual.height}px. ` (with the trailing space). -/
def dimensionMismatchMessage (expected actual : Image) : String :=
  "Expected an image " ++ Nat.repr expected.width ++ "px by " ++
  Nat.repr expected.height ++ "px, received " ++ Nat.repr actual.width ++
  "px by " ++ Nat.repr actual.height ++ "px. "

/-- The ratio of `compareImages` in hundredths:
`Math.ceil(count / (width * height) * 100)`, so that the reported ratio is
this value divided by 100. -/
def ratioHundredths (count width height : Nat) : Int :=
  ⌈((count : ℚ) / ((width * height : Nat) : ℚ)) * 100⌉

/-- The pixel-difference message template of `compareImages`:
`${count} pixels (ratio ${ratio.toFixed(2)} of all image pixels) are different`. -/
def diffPixelsMessage (count width height : Nat) : String :=
  Nat.repr count ++ " pixels (ratio " ++ toFixed2 (ratioHundredths count width height) ++
  " of all image pixels) are different"

/-- Function `compareImages` from the source.  A thrown JavaScript error (codec
failure or unknown comparator) is the `Except.error` channel. -/
def compareImages (env : ImageEnv) (mimeType : String) (actualBuffer : BufferOrString)
    (expectedBuffer : List Nat) (options : ImageComparatorOptions) :
    Except String ComparatorResult :=
  match actualBuffer with
  | .str _ => .ok (some { errorMessage := "Actual result should be a Buffer." })
  | .other => .ok (some { errorMessage := "Actual result should be a Buffer." })
  | .buf ab =>
    match decodeImage env mimeType ab with
    | .error err => .error err
    | .ok actual =>
      match decodeImage env mimeType expectedBuffer with
      | .error err => .error err
      | .ok expected =>
        if expected.width ≠ actual.width ∨ expected.height ≠ actual.height then
          .ok (some { errorMessage := dimensionMismatchMessage expected actual })
        else
          match runComparatorAlgorithm env options
              expected.data actual.data expected.width expected.height with
          | .error err => .error err
          | .ok (count, diffData) =>
            let maxDiffPixels := effectiveMaxDiffPixels options expected.width expected.height
            if (count : ℚ) > maxDiffPixels then
              .ok (some ⟨diffPixelsMessage count expected.width expected.height,
                some (env.encodePng ⟨expected.width, expected.height, diffData⟩)⟩)
            else
              .ok none

/-- Function `getComparator` from the source: the registry mapping a content type to
a comparator. -/
def getComparator (env : Env) (mimeType : String) :
    BufferOrString → List Nat → ImageComparatorOptions → Except String ComparatorResult :=
  if mimeType = "image/png" then
    fun a e o => compareImages env.image "image/png" a e o
  else if mimeType = "image/jpeg" then
    fun a e o => compareImages env.image "image/jpeg" a e o
  else if mimeType = "text/plain" then
    fun a e _ => .ok (compareText env.text a e)
  else
    fun a e _ => .ok (compareBuffersOrStrings env.text a e)

/-- Spec-side rendering of a single text edit, following the specification
text: `Insert` spans in added style, `Delete` spans in removed
(struck-through, reset-terminated) style, `Equal` spans verbatim.  Used
only to compare `diff_prettyTerminal` against the spec's description. -/
def renderTextEdit (env : TextEnv) (e : Int × String) : String :=
  if e.1 = DIFF_INSERT then env.green e.2
  else if e.1 = DIFF_DELETE then env.colorReset (env.strikethrough (env.red e.2))
  else e.2

instance {ε α : Type} [DecidableEq ε] [DecidableEq α] : DecidableEq (Except ε α) :=
  fun a b =>
    match a, b with
    | .ok x, .ok y => decidable_of_iff (x = y) (by simp)
    | .error x, .error y => decidable_of_iff (x = y) (by simp)
    | .ok _, .error _ => isFalse (by simp)
    | .error _, .ok _ => isFalse (by simp)

/-- Concrete image environment used to exercise the theorems on explicit
inputs: a buffer decodes to an image one pixel tall and as wide as the
buffer is long, both pixel-diff kernels report `n` differing pixels and
write `dd`, and encoding returns the raw sample data. -/
def testImageEnv (n : Nat) (dd : List Nat) : ImageEnv where
  decodePng := fun b => .ok ⟨b.length, 1, b⟩
  decodeJpeg := fun b => .ok ⟨b.length, 1, b⟩
  pixelmatch := fun _ _ _ _ _ => (n, dd)
  ssimCie94 := fun _ _ _ _ _ => (n, dd)
  encodePng := fun img => img.data

/-- Concrete text environment used to exercise the theorems on explicit
inputs: decimal rendering as the UTF-8 decode, a one-delete-one-insert
diff, identity cleanup, and bracketing marker styles. -/
def testTextEnv : TextEnv where
  toStringUtf8 := fun b => String.join (b.map (fun n => Nat.repr n))
  diffMain := fun e a => [(DIFF_DELETE, e), (DIFF_INSERT, a)]
  cleanupSemantic := fun d => d
  green := fun s => "+" ++ s ++ "+"
  red := fun s => "-" ++ s ++ "-"
  strikethrough := fun s => "~" ++ s ++ "~"
  colorReset := fun s => s ++ "#"

/-- Concrete full environment combining `testImageEnv` (with a zero-diff
kernel) and `testTextEnv`. -/
def testEnv : Env := ⟨testImageEnv 0 [], testTextEnv⟩

/-- Unfolding of `compareImages` on a buffer input whose two decodes
succeed: dimension check first, then algorithm dispatch, then the
threshold policy. -/
theorem compareImages_buf_eq (env : ImageEnv) (mt : String) (ab eb : List Nat)
    (opts : ImageComparatorOptions) (a e : Image)
    (ha : decodeImage env mt ab = .ok a) (he : decodeImage env mt eb = .ok e) :
    compareImages env mt (.buf ab) eb opts =
      if e.width ≠ a.width ∨ e.height ≠ a.height then
        .ok (some ⟨dimensionMismatchMessage e a, none⟩)
      else
        match runComparatorAlgorithm env opts e.data a.data e.width e.height with
        | .error err => .error err
        | .ok (count, diffData) =>
          if (count : ℚ) > effectiveMaxDiffPixels opts e.width e.height then
            .ok (some ⟨diffPixelsMessage count e.width e.height,
              some (env.encodePng ⟨e.width, e.height, diffData⟩)⟩)
          else .ok none := by
  simp only [compareImages, ha, he]

/-- Unfolding of `compareImages` on a buffer input whose decodes succeed
with equal-dimension images and whose algorithm dispatch returns a count:
only the threshold policy remains. -/
theorem compareImages_run_eq (env : ImageEnv) (mt : String) (ab eb : List Nat)
    (opts : ImageComparatorOptions) (a e : Image) (count : Nat) (diffData : List Nat)
    (ha : decodeImage env mt ab = .ok a) (he : decodeImage env mt eb = .ok e)
    (hw : e.width = a.width) (hh : e.height = a.height)
    (hrun : runComparatorAlgorithm env opts e.data a.data e.width e.height =
      .ok (count, diffData)) :
    compareImages env mt (.buf ab) eb opts =
      if (count : ℚ) > effectiveMaxDiffPixels opts e.width e.height then
        .ok (some ⟨diffPixelsMessage count e.width e.height,
          some (env.encodePng ⟨e.width, e.height, diffData⟩)⟩)
      else .ok none := by
  have hcond : ¬(e.width ≠ a.width ∨ e.height ≠ a.height) := by simp [hw, hh]
  rw [compareImages_buf_eq env mt ab eb opts a e ha he, if_neg hcond, hrun]

/-- C2: the comparator registry is total; `image/png` and `image/jpeg`
select the image comparator bound to that sub-format, `text/plain` selects
the text comparator, and every other content-type string selects the
binary comparator; selection itself never fails. -/
theorem getComparator_total_selection (env : Env) (mimeType : String)
    (a : BufferOrString) (e : List Nat) (o : ImageComparatorOptions) :
    getComparator env mimeType a e o =
      if mimeType = "image/png" then compareImages env.image "image/png" a e o
      else if mimeType = "image/jpeg" then compareImages env.image "image/jpeg" a e o
      else if mimeType = "text/plain" then .ok (compareText env.text a e)
      else .ok (compareBuffersOrStrings env.text a e) := by
  simp only [getComparator]
  split_ifs <;> rfl

/-- C3: when the decoded expected and actual images differ in width or
height, the image comparator returns a mismatch whose message reports both
dimension pairs, and that mismatch carries no diff payload. -/
theorem compareImages_dimension_mismatch (env : ImageEnv) (mt : String)
    (ab eb : List Nat) (opts : ImageComparatorOptions) (a e : Image)
    (ha : decodeImage env mt ab = .ok a) (he : decodeImage env mt eb = .ok e)
    (hne : e.width ≠ a.width ∨ e.height ≠ a.height) :
    compareImages env mt (.buf ab) eb opts =
      .ok (some { errorMessage := dimensionMismatchMessage e a, diff := none }) := by
  rw [compareImages_buf_eq env mt ab eb opts a e ha he, if_pos hne]

theorem compareImages_dimension_mismatch_witness :
    decodeImage (testImageEnv 0 []) "image/png" [8, 9] = .ok ⟨2, 1, [8, 9]⟩ ∧
    decodeImage (testImageEnv 0 []) "image/png" [7] = .ok ⟨1, 1, [7]⟩ ∧
    compareImages (testImageEnv 0 []) "image/png" (.buf [8, 9]) [7] {} =
      .ok (some ⟨dimensionMismatchMessage ⟨1, 1, [7]⟩ ⟨2, 1, [8, 9]⟩, none⟩) :=
  ⟨rfl, rfl, compareImages_dimension_mismatch (testImageEnv 0 []) "image/png"
    [8, 9] [7] {} ⟨2, 1, [8, 9]⟩ ⟨1, 1, [7]⟩ rfl rfl (Or.inl (by decide))⟩

/-- C4: for a buffer input decoding to equal-dimension images, any
`options.comparator` value other than `"ssim-cie94"` and `"pixelmatch"`
makes the image comparator throw (an `Except.error`, never a mismatch
verdict), regardless of pixel content. -/
theorem compareImages_unknown_comparator_fatal (env : ImageEnv) (mt : String)
    (ab eb : List Nat) (opts : ImageComparatorOptions) (a e : Image) (c : String)
    (ha : decodeImage env mt ab = .ok a) (he : decodeImage env mt eb = .ok e)
    (hw : e.width = a.width) (hh : e.height = a.height)
    (hc : opts.comparator = some c) (h1 : c ≠ "ssim-cie94") (h2 : c ≠ "pixelmatch") :
    compareImages env mt (.buf ab) eb opts =
      .error ("Configuration specifies unknown comparator \"" ++ c ++ "\"") := by
  have hcond : ¬(e.width ≠ a.width ∨ e.height ≠ a.height) := by simp [hw, hh]
  have hrun : runComparatorAlgorithm env opts e.data a.data e.width e.height =
      .error ("Configuration specifies unknown comparator \"" ++ c ++ "\"") := by
    simp only [runComparatorAlgorithm, hc, Option.getD_some]
    simp [h1, h2]
  rw [compareImages_buf_eq env mt ab eb opts a e ha he, if_neg hcond, hrun]

theorem compareImages_unknown_comparator_fatal_witness :
    ({ comparator := some "bogus" } : ImageComparatorOptions).comparator = some "bogus" ∧
    compareImages (testImageEnv 0 []) "image/png" (.buf [7]) [7]
      { comparator := some "bogus" } =
      .error ("Configuration specifies unknown comparator \"" ++ "bogus" ++ "\"") :=
  ⟨rfl, compareImages_unknown_comparator_fatal (testImageEnv 0 []) "image/png"
    [7] [7] { comparator := some "bogus" } ⟨1, 1, [7]⟩ ⟨1, 1, [7]⟩ "bogus"
    rfl rfl rfl rfl rfl (by decide) (by decide)⟩

/-- C7: the binary comparator delegates strings to the text comparator,
rejects non-buffer non-string values with the fixed message, and compares
buffers byte-for-byte, yielding a match exactly on equality and the
generic `Buffers differ` mismatch with no diff payload otherwise. -/
theorem compareBuffersOrStrings_spec (env : TextEnv) (s : String) (b eb : List Nat) :
    (compareBuffersOrStrings env (.str s) eb = compareText env (.str s) eb) ∧
    (compareBuffersOrStrings env .other eb =
      some { errorMessage := "Actual result should be a Buffer or a string.", diff := none }) ∧
    (compareBuffersOrStrings env (.buf b) eb =
      if b = eb then none
      else some { errorMessage := "Buffers differ", diff := none }) := by
  refine ⟨rfl, rfl, ?_⟩
  simp only [compareBuffersOrStrings, ne_eq, ite_not]

/-- C9: in the image comparator the non-buffer check and the dimension
check both precede algorithm dispatch: a non-buffer actual produces its
mismatch verdict unconditionally — before any decode, for every expected
buffer and every options value — and decoded images of differing
dimensions produce the dimension mismatch for every options value; in both
cases even for an unrecognized `comparator` name, so the fatal
unknown-comparator error is reachable only for buffer inputs decoding to
equal-dimension images. -/
theorem compareImages_checks_precede_dispatch (env : ImageEnv) (mt : String)
    (ab eb : List Nat) (opts : ImageComparatorOptions) (s : String) (a e : Image) :
    (compareImages env mt (.str s) eb opts =
      .ok (some { errorMessage := "Actual result should be a Buffer.", diff := none })) ∧
    (compareImages env mt .other eb opts =
      .ok (some { errorMessage := "Actual result should be a Buffer.", diff := none })) ∧
    (decodeImage env mt ab = .ok a → decodeImage env mt eb = .ok e →
      (e.width ≠ a.width ∨ e.height ≠ a.height) →
      compareImages env mt (.buf ab) eb opts =
        .ok (some { errorMessage := dimensionMismatchMessage e a, diff := none })) := by
  refine ⟨rfl, rfl, ?_⟩
  intro ha he hne
  rw [compareImages_buf_eq env mt ab eb opts a e ha he, if_pos hne]

theorem compareImages_checks_precede_dispatch_witness :
    ((compareImages (testImageEnv 0 []) "image/png" (.str "hi") [7]
        { comparator := some "bogus" } =
      .ok (some { errorMessage := "Actual result should be a Buffer.", diff := none })) ∧
    (compareImages (testImageEnv 0 []) "image/png" .other [7]
        { comparator := some "bogus" } =
      .ok (some { errorMessage := "Actual result should be a Buffer.", diff := none })) ∧
    (decodeImage (testImageEnv 0 []) "image/png" [8, 9] = .ok ⟨2, 1, [8, 9]⟩ →
      decodeImage (testImageEnv 0 []) "image/png" [7] = .ok ⟨1, 1, [7]⟩ →
      ((1 : Nat) ≠ 2 ∨ (1 : Nat) ≠ 1) →
      compareImages (testImageEnv 0 []) "image/png" (.buf [8, 9]) [7]
          { comparator := some "bogus" } =
        .ok (some ⟨dimensionMismatchMessage ⟨1, 1, [7]⟩ ⟨2, 1, [8, 9]⟩, none⟩))) ∧
    compareImages (testImageEnv 0 []) "image/png" (.buf [8, 9]) [7]
        { comparator := some "bogus" } =
      .ok (some ⟨dimensionMismatchMessage ⟨1, 1, [7]⟩ ⟨2, 1, [8, 9]⟩, none⟩) :=
  have h := compareImages_checks_precede_dispatch (testImageEnv 0 []) "image/png"
    [8, 9] [7] { comparator := some "bogus" } "hi" ⟨2, 1, [8, 9]⟩ ⟨1, 1, [7]⟩
  ⟨h, h.2.2 rfl rfl (Or.inl (by decide))⟩

/-- C10: the image comparator does not validate option ranges: a negative
`maxDiffPixels` makes the effective cap negative, so even a zero
differing-pixel count on equal-dimension images yields a mismatch. -/
theorem compareImages_negative_maxDiffPixels (env : ImageEnv) (mt : String)
    (ab eb : List Nat) (opts : ImageComparatorOptions) (a e : Image)
    (m : ℚ) (diffData : List Nat)
    (ha : decodeImage env mt ab = .ok a) (he : decodeImage env mt eb = .ok e)
    (hw : e.width = a.width) (hh : e.height = a.height)
    (hrun : runComparatorAlgorithm env opts e.data a.data e.width e.height =
      .ok (0, diffData))
    (hm : opts.maxDiffPixels = some m) (hneg : m < 0) :
    effectiveMaxDiffPixels opts e.width e.height < 0 ∧
    compareImages env mt (.buf ab) eb opts =
      .ok (some ⟨diffPixelsMessage 0 e.width e.height,
        some (env.encodePng ⟨e.width, e.height, diffData⟩)⟩) := by
  have hcap : effectiveMaxDiffPixels opts e.width e.height < 0 := by
    simp only [effectiveMaxDiffPixels, hm]
    cases hr : opts.maxDiffPixelRatio with
    | none => simpa using hneg
    | some r =>
      simp only [Option.map_some']
      exact lt_of_le_of_lt (min_le_left _ _) hneg
  refine ⟨hcap, ?_⟩
  have h0 : ((0 : Nat) : ℚ) > effectiveMaxDiffPixels opts e.width e.height := by
    rw [Nat.cast_zero]
    exact hcap
  rw [compareImages_run_eq env mt ab eb opts a e 0 diffData ha he hw hh hrun, if_pos h0]

theorem compareImages_negative_maxDiffPixels_witness :
    ({ maxDiffPixels := some (-1) } : ImageComparatorOptions).maxDiffPixels = some (-1) ∧
    (-1 : ℚ) < 0 ∧
    (effectiveMaxDiffPixels { maxDiffPixels := some (-1) } 1 1 < 0 ∧
      compareImages (testImageEnv 0 []) "image/png" (.buf [7]) [7]
        { maxDiffPixels := some (-1) } =
        .ok (some ⟨diffPixelsMessage 0 1 1, some []⟩)) :=
  ⟨rfl, by decide, compareImages_negative_maxDiffPixels (testImageEnv 0 [])
    "image/png" [7] [7] { maxDiffPixels := some (-1) } ⟨1, 1, [7]⟩ ⟨1, 1, [7]⟩
    (-1) [] rfl rfl rfl rfl rfl rfl (by decide)⟩

/-- C1: for equal-dimension images the effective pixel cap is the minimum
of `maxDiffPixels` and `width*height*maxDiffPixelRatio` when both options
are given, whichever is present when only one is given, and 0 when neither
is given; the verdict is a match exactly when the differing-pixel count is
at most the cap, and above the cap the mismatch carries the encoded diff
image as payload. -/
theorem compareImages_effective_cap (env : ImageEnv) (mt : String) (ab eb : List Nat)
    (opts : ImageComparatorOptions) (a e : Image) (count : Nat) (diffData : List Nat)
    (ha : decodeImage env mt ab = .ok a) (he : decodeImage env mt eb = .ok e)
    (hw : e.width = a.width) (hh : e.height = a.height)
    (hrun : runComparatorAlgorithm env opts e.data a.data e.width e.height =
      .ok (count, diffData)) :
    (effectiveMaxDiffPixels opts e.width e.height =
      match opts.maxDiffPixels, opts.maxDiffPixelRatio with
      | some m, some r => min m (((e.width * e.height : Nat) : ℚ) * r)
      | some m, none => m
      | none, some r => ((e.width * e.height : Nat) : ℚ) * r
      | none, none => 0) ∧
    (compareImages env mt (.buf ab) eb opts = .ok none ↔
      (count : ℚ) ≤ effectiveMaxDiffPixels opts e.width e.height) ∧
    ((count : ℚ) > effectiveMaxDiffPixels opts e.width e.height →
      compareImages env mt (.buf ab) eb opts =
        .ok (some ⟨diffPixelsMessage count e.width e.height,
          some (env.encodePng ⟨e.width, e.height, diffData⟩)⟩)) := by
  refine ⟨?_, ?_, ?_⟩
  · simp only [effectiveMaxDiffPixels]
    cases opts.maxDiffPixels <;> cases opts.maxDiffPixelRatio <;> rfl
  · rw [compareImages_run_eq env mt ab eb opts a e count diffData ha he hw hh hrun]
    split_ifs with hgt
    · exact iff_of_false (by simp) (not_le.mpr hgt)
    · exact iff_of_true rfl (not_lt.mp hgt)
  · intro hgt
    rw [compareImages_run_eq env mt ab eb opts a e count diffData ha he hw hh hrun,
      if_pos hgt]

theorem compareImages_effective_cap_witness :
    runComparatorAlgorithm (testImageEnv 5 [1, 2]) {} [7] [7] 1 1 = .ok (5, [1, 2]) ∧
    ((effectiveMaxDiffPixels {} 1 1 = 0) ∧
    (compareImages (testImageEnv 5 [1, 2]) "image/png" (.buf [7]) [7] {} = .ok none ↔
      ((5 : Nat) : ℚ) ≤ effectiveMaxDiffPixels {} 1 1) ∧
    (((5 : Nat) : ℚ) > effectiveMaxDiffPixels {} 1 1 →
      compareImages (testImageEnv 5 [1, 2]) "image/png" (.buf [7]) [7] {} =
        .ok (some ⟨diffPixelsMessage 5 1 1, some [1, 2]⟩))) :=
  ⟨rfl, compareImages_effective_cap (testImageEnv 5 [1, 2]) "image/png" [7] [7] {}
    ⟨1, 1, [7]⟩ ⟨1, 1, [7]⟩ 5 [1, 2] rfl rfl rfl rfl rfl⟩

/-- Between one and one hundred hundredths, `toFixed2` never renders the
string `0.00`. -/
theorem toFixed2_ne_zero_of_pos (k : Int) (h1 : 1 ≤ k) (h100 : k ≤ 100) :
    toFixed2 k ≠ "0.00" := by
  interval_cases k <;> decide

/-- The ceiling-of-hundredths ratio is at least 1 when at least one pixel
differs in a nonempty grid. -/
theorem ratioHundredths_pos (count width height : Nat)
    (hpos : 0 < width * height) (hc : 1 ≤ count) :
    1 ≤ ratioHundredths count width height := by
  rw [ratioHundredths]
  have hw : (0 : ℚ) < ((width * height : Nat) : ℚ) := by exact_mod_cast hpos
  have hcq : (0 : ℚ) < ((count : Nat) : ℚ) := by exact_mod_cast hc
  have hx : (0 : ℚ) < ((count : Nat) : ℚ) / ((width * height : Nat) : ℚ) * 100 := by
    positivity
  have := Int.ceil_pos.mpr hx
  omega

/-- The ceiling-of-hundredths ratio is at most 100 when the count does not
exceed the pixel total. -/
theorem ratioHundredths_le_100 (count width height : Nat)
    (hle : count ≤ width * height) :
    ratioHundredths count width height ≤ 100 := by
  rw [ratioHundredths]
  rcases Nat.eq_zero_or_pos (width * height) with h | h
  · have hc : count = 0 := Nat.le_zero.mp (h ▸ hle)
    subst hc
    simp [h]
  · have hw : (0 : ℚ) < ((width * height : Nat) : ℚ) := by exact_mod_cast h
    have hx : ((count : Nat) : ℚ) / ((width * height : Nat) : ℚ) ≤ 1 :=
      (div_le_one hw).mpr (by exact_mod_cast hle)
    have hb : ((count : Nat) : ℚ) / ((width * height : Nat) : ℚ) * 100 ≤ 100 := by
      linarith
    exact Int.ceil_le.mpr (by exact_mod_cast hb)

/-- C5: on a pixel-difference mismatch for equal-dimension images the ratio
rendered in the message is `ceil(count / (width*height) * 100) / 100` shown
with two decimals, and for a nonzero differing-pixel count (within a
nonempty grid) the rendered ratio is never `0.00`. -/
theorem compareImages_ratio_reporting (env : ImageEnv) (mt : String)
    (ab eb : List Nat) (opts : ImageComparatorOptions) (a e : Image)
    (count : Nat) (diffData : List Nat)
    (ha : decodeImage env mt ab = .ok a) (he : decodeImage env mt eb = .ok e)
    (hw : e.width = a.width) (hh : e.height = a.height)
    (hrun : runComparatorAlgorithm env opts e.data a.data e.width e.height =
      .ok (count, diffData))
    (hcap : (count : ℚ) > effectiveMaxDiffPixels opts e.width e.height)
    (hpos : 0 < e.width * e.height) (hle : count ≤ e.width * e.height) :
    compareImages env mt (.buf ab) eb opts =
      .ok (some ⟨Nat.repr count ++ " pixels (ratio " ++
        toFixed2 ⌈((count : Nat) : ℚ) / ((e.width * e.height : Nat) : ℚ) * 100⌉ ++
        " of all image pixels) are different",
        some (env.encodePng ⟨e.width, e.height, diffData⟩)⟩) ∧
    (1 ≤ count →
      toFixed2 ⌈((count : Nat) : ℚ) / ((e.width * e.height : Nat) : ℚ) * 100⌉ ≠ "0.00") := by
  constructor
  · rw [compareImages_run_eq env mt ab eb opts a e count diffData ha he hw hh hrun,
      if_pos hcap]
    rfl
  · intro h1
    have hlo := ratioHundredths_pos count e.width e.height hpos h1
    have hhi := ratioHundredths_le_100 count e.width e.height hle
    rw [ratioHundredths] at hlo hhi
    exact toFixed2_ne_zero_of_pos _ hlo hhi

theorem compareImages_ratio_reporting_witness :
    ((1 : Nat) : ℚ) > effectiveMaxDiffPixels {} 1 1 ∧ 0 < 1 * 1 ∧ 1 ≤ 1 * 1 ∧
    (compareImages (testImageEnv 1 [9]) "image/png" (.buf [7]) [7] {} =
      .ok (some ⟨Nat.repr 1 ++ " pixels (ratio " ++
        toFixed2 ⌈((1 : Nat) : ℚ) / ((1 * 1 : Nat) : ℚ) * 100⌉ ++
        " of all image pixels) are different", some [9]⟩) ∧
    (1 ≤ 1 →
      toFixed2 ⌈((1 : Nat) : ℚ) / ((1 * 1 : Nat) : ℚ) * 100⌉ ≠ "0.00")) :=
  ⟨by decide, by decide, by decide,
    compareImages_ratio_reporting (testImageEnv 1 [9]) "image/png" [7] [7] {}
      ⟨1, 1, [7]⟩ ⟨1, 1, [7]⟩ 1 [9] rfl rfl rfl rfl rfl (by decide) (by decide) (by decide)⟩

/-- C6: the text comparator rejects non-string actual values with the
fixed message (independent of buffer content), matches exactly when the
actual string equals the UTF-8 decoding of the expected buffer, and
otherwise yields a payload-free mismatch whose message renders the cleaned
edit sequence in order — inserts in added style, deletes in removed
struck-through style, equals verbatim. -/
theorem compareText_spec (env : TextEnv) (s : String) (b eb : List Nat)
    (d : List (Int × String))
    (hd : env.cleanupSemantic (env.diffMain (env.toStringUtf8 eb) s) = d)
    (hops : ∀ p ∈ d, p.1 = DIFF_INSERT ∨ p.1 = DIFF_DELETE ∨ p.1 = DIFF_EQUAL) :
    (compareText env (.buf b) eb =
      some { errorMessage := "Actual result should be a string", diff := none }) ∧
    (compareText env .other eb =
      some { errorMessage := "Actual result should be a string", diff := none }) ∧
    (compareText env (.str s) eb =
      if env.toStringUtf8 eb = s then none
      else some { errorMessage := diff_prettyTerminal env d, diff := none }) ∧
    (diff_prettyTerminal env d = String.join (d.map (renderTextEdit env))) := by
  refine ⟨rfl, rfl, ?_, ?_⟩
  · simp only [compareText, hd]
  · rw [diff_prettyTerminal]
    refine congrArg String.join (List.map_congr_left ?_)
    intro p hp
    rcases hops p hp with h | h | h <;>
      simp [renderTextEdit, h, DIFF_INSERT, DIFF_DELETE, DIFF_EQUAL]

theorem compareText_spec_witness :
    testTextEnv.cleanupSemantic (testTextEnv.diffMain (testTextEnv.toStringUtf8 [1]) "a") =
      [(DIFF_DELETE, "1"), (DIFF_INSERT, "a")] ∧
    ((compareText testTextEnv (.buf [2]) [1] =
      some { errorMessage := "Actual result should be a string", diff := none }) ∧
    (compareText testTextEnv .other [1] =
      some { errorMessage := "Actual result should be a string", diff := none }) ∧
    (compareText testTextEnv (.str "a") [1] =
      if testTextEnv.toStringUtf8 [1] = "a" then none
      else some ⟨diff_prettyTerminal testTextEnv [(DIFF_DELETE, "1"), (DIFF_INSERT, "a")],
        none⟩) ∧
    (diff_prettyTerminal testTextEnv [(DIFF_DELETE, "1"), (DIFF_INSERT, "a")] =
      String.join ([(DIFF_DELETE, "1"), (DIFF_INSERT, "a")].map (renderTextEdit testTextEnv)))) :=
  ⟨rfl, compareText_spec testTextEnv "a" [2] [1]
    [(DIFF_DELETE, "1"), (DIFF_INSERT, "a")] rfl (by decide)⟩

/-- Comparing a buffer against itself through the image comparator yields
a match whenever its decode succeeds and the pixelmatch kernel reports
zero differing pixels on the decoded image against itself (with the
default options, both decodes run the same codec on the same bytes, so
dimensions agree and the default cap 0 is not exceeded). -/
theorem compareImages_self_of_kernel_zero (env : ImageEnv) (mt2 : String)
    (b : List Nat) (im : Image) (hdec : decodeImage env mt2 b = .ok im)
    (hk : (env.pixelmatch im.data im.data im.width im.height (1/5)).1 = 0) :
    compareImages env mt2 (.buf b) b {} = .ok none := by
  rcases hpair : env.pixelmatch im.data im.data im.width im.height (1/5) with ⟨c, dd⟩
  have hc0 : c = 0 := by
    rw [hpair] at hk
    exact hk
  subst hc0
  have hrun : runComparatorAlgorithm env {} im.data im.data im.width im.height =
      .ok (0, dd) := by
    rw [show runComparatorAlgorithm env {} im.data im.data im.width im.height =
      .ok (env.pixelmatch im.data im.data im.width im.height (1/5)) from rfl, hpair]
  rw [compareImages_run_eq env mt2 b b {} im im 0 dd hdec hdec rfl rfl hrun]
  have hcap : ¬(((0 : Nat) : ℚ) > effectiveMaxDiffPixels {} im.width im.height) := by
    simp [effectiveMaxDiffPixels]
  rw [if_neg hcap]

/-- C8 counterexample: the claim fails for `text/plain` — a byte buffer
compared against itself through the text comparator is not a match, because
a buffer actual is rejected with the string-contract mismatch. -/
theorem comparator_self_match_counterexample :
    getComparator testEnv "text/plain" (.buf []) [] {} ≠ .ok none := by
  decide

/-- C8 (amended): for every content type other than `text/plain`, a byte
buffer compared against itself yields a match: unconditionally for the
binary fallback, and for `image/png` (resp. `image/jpeg`) provided the
buffer decodes under the bound codec and the pixelmatch kernel reports
zero differing pixels on the decoded image against itself; for
`text/plain` the buffer actual is always rejected with the
`Actual result should be a string` mismatch, whatever the environment. -/
theorem comparator_self_match_amended (env : Env) (mt : String) (b : List Nat)
    (im : Image) :
    (getComparator env "text/plain" (.buf b) b {} =
      .ok (some { errorMessage := "Actual result should be a string", diff := none })) ∧
    (mt ≠ "image/png" → mt ≠ "image/jpeg" → mt ≠ "text/plain" →
      getComparator env mt (.buf b) b {} = .ok none) ∧
    (env.image.decodePng b = .ok im →
      (env.image.pixelmatch im.data im.data im.width im.height (1/5)).1 = 0 →
      getComparator env "image/png" (.buf b) b {} = .ok none) ∧
    (env.image.decodeJpeg b = .ok im →
      (env.image.pixelmatch im.data im.data im.width im.height (1/5)).1 = 0 →
      getComparator env "image/jpeg" (.buf b) b {} = .ok none) := by
  refine ⟨rfl, ?_, ?_, ?_⟩
  · intro h1 h2 h3
    simp only [getComparator, if_neg h1, if_neg h2, if_neg h3]
    simp [compareBuffersOrStrings]
  · intro hdec hk
    show compareImages env.image "image/png" (.buf b) b {} = .ok none
    exact compareImages_self_of_kernel_zero env.image "image/png" b im hdec hk
  · intro hdec hk
    show compareImages env.image "image/jpeg" (.buf b) b {} = .ok none
    exact compareImages_self_of_kernel_zero env.image "image/jpeg" b im hdec hk

theorem comparator_self_match_amended_witness :
    ((getComparator testEnv "text/plain" (.buf [3]) [3] {} =
      .ok (some { errorMessage := "Actual result should be a string", diff := none })) ∧
    (("application/octet-stream" : String) ≠ "image/png" →
      ("application/octet-stream" : String) ≠ "image/jpeg" →
      ("application/octet-stream" : String) ≠ "text/plain" →
      getComparator testEnv "application/octet-stream" (.buf [3]) [3] {} = .ok none) ∧
    ((testImageEnv 0 []).decodePng [3] = .ok ⟨1, 1, [3]⟩ →
      ((testImageEnv 0 []).pixelmatch [3] [3] 1 1 (1/5)).1 = 0 →
      getComparator testEnv "image/png" (.buf [3]) [3] {} = .ok none) ∧
    ((testImageEnv 0 []).decodeJpeg [3] = .ok ⟨1, 1, [3]⟩ →
      ((testImageEnv 0 []).pixelmatch [3] [3] 1 1 (1/5)).1 = 0 →
      getComparator testEnv "image/jpeg" (.buf [3]) [3] {} = .ok none)) ∧
    getComparator testEnv "application/octet-stream" (.buf [3]) [3] {} = .ok none ∧
    getComparator testEnv "image/png" (.buf [3]) [3] {} = .ok none :=
  have h := comparator_self_match_amended testEnv "application/octet-stream" [3] ⟨1, 1, [3]⟩
  ⟨h, h.2.1 (by decide) (by decide) (by decide), h.2.2.1 rfl rfl⟩

end Comparators
